import Mathlib

/-!
# Verification of the chat streaming/resume subsystem

Shallow embedding of the repository's route handlers:
the chat route (POST start-generation, GET resume, DELETE) and the
vote route (GET list-votes, PATCH cast-vote), together with the
`getStreamContext` lazy-initialisation lifecycle and a model of the
channel backend's replay-then-live delivery.

Handlers are modelled as pure functions over an environment record that
captures the results the external collaborators (auth, storage CRUD,
channel backend) would return for this request, and they return a
result value paired with a trace of the write effects they performed.
-/

namespace ChatBot

/-- Error kinds of `ChatSDKError`, in `kind:domain` form. -/
inductive ErrCode where
  | badRequestApi
  | unauthorizedChat
  | unauthorizedVote
  | forbiddenChat
  | forbiddenVote
  | notFoundChat
  | notFoundStream
  | rateLimitChat
  | internalServerErrorApi
deriving DecidableEq, Repr

/-- An authenticated session: `session.user.id` and `session.user.type`. -/
structure Session where
  userId : String
  userType : String
deriving DecidableEq, Repr

/-- A chat row, restricted to the fields the handlers consult:
`chat.userId` (owner) and `chat.visibility` (the source compares the
visibility against the string literal `"private"`). -/
structure Chat where
  userId : String
  visibility : String
deriving DecidableEq, Repr

/-- A persisted message row, restricted to the fields the resume
fallback consults: `role` and `createdAt` (an integer timestamp in
seconds), plus identifying fields and content parts. -/
structure DBMessage where
  id : String
  chatId : String
  role : String
  createdAt : Int
  parts : List String
deriving DecidableEq, Repr

/-- One unit of streamed output.  `appendMessage` is the control chunk
the fallback path writes (`buffer.writeData` with the serialized most
recent message); `errorChunk` is what `createDataStream`'s `onError`
handler turns an escaped error into; `terminator` closes a stream. -/
inductive Chunk where
  | textDelta (s : String)
  | reasoningDelta (s : String)
  | toolEvent (s : String)
  | appendMessage (m : DBMessage)
  | errorChunk (s : String)
  | terminator
deriving DecidableEq, Repr

/-- Write effects the handlers may perform against storage, recorded in
invocation order. -/
inductive Effect where
  | saveChat
  | saveUserMessage
  | createStreamId
  | deleteChat
  | voteMessage (ty : String)
deriving DecidableEq, Repr

/-! ## getStreamContext: lazy initialisation of the channel-backend handle -/

/-- Stand-in for the `resumable-stream` package's context object. -/
structure ResumableStreamContext where
  handle : Nat
deriving DecidableEq, Repr

/-- One call to `getStreamContext` (source lines 45-64).  `global` is the
current value of the module-level `globalStreamContext` variable;
`constructed` is what `createResumableStreamContext` would yield on this
call (`none` = it throws).  Returns the value returned to the caller,
the new value of the global, and whether construction was attempted.
On a throw the catch block only logs, so the global stays `none`. -/
def getStreamContextCall (global : Option ResumableStreamContext)
    (constructed : Option ResumableStreamContext) :
    Option ResumableStreamContext × Option ResumableStreamContext × Bool :=
  match global with
  | some c => (some c, some c, false)
  | none => (constructed, constructed, true)

/-- Run a sequence of `getStreamContext` calls from a given global state;
`outcomes` lists what construction would yield at each call.  Returns the
per-call attempted-construction flags. -/
def getStreamContextAttempts :
    Option ResumableStreamContext → List (Option ResumableStreamContext) → List Bool
  | _, [] => []
  | g, o :: os =>
    let r := getStreamContextCall g o
    r.2.2 :: getStreamContextAttempts r.2.1 os

/-- `true` iff, in a run of `getStreamContext` calls from `global`, some
call attempts construction after an earlier call already attempted
construction and recorded a failure. -/
def retriesAfterFailure :
    Option ResumableStreamContext → Bool → List (Option ResumableStreamContext) → Bool
  | _, _, [] => false
  | g, failedBefore, o :: os =>
    let r := getStreamContextCall g o
    if r.2.2 && failedBefore then true
    else retriesAfterFailure r.2.1 (failedBefore || (r.2.2 && o.isNone)) os

/-! ## POST /api/chat: start a generation -/

/-- Environment of one POST request: parse outcome, session, the values
storage returns, the entitlement table, the stream `createDataStream`
produced, whether `getStreamContext` yielded a context, and what
`streamContext.resumableStream` returns when it did. -/
structure PostEnv where
  parseOk : Bool
  session : Option Session
  messageCount : Nat
  maxMessagesPerDay : String → Nat
  existingChat : Option Chat
  producedStream : List Chunk
  streamContextAvailable : Bool
  resumableResult : Option (List Chunk)

inductive PostResult where
  | error (e : ErrCode)
  | response (s : List Chunk)
deriving DecidableEq, Repr

/-- Common tail of the POST handler after the chat is created or
ownership confirmed: save the user message, mint a stream id, then pick
the response stream (source lines 144-270). -/
def postTail (env : PostEnv) (effs : List Effect) : PostResult × List Effect :=
  let effs := effs ++ [Effect.saveUserMessage, Effect.createStreamId]
  let stream := env.producedStream
  if env.streamContextAvailable then
    match env.resumableResult with
    | some r => (.response r, effs)
    | none => (.response stream, effs)
  else
    (.response stream, effs)

/-- The POST handler (source lines 74-281), returning its result and the
ordered trace of storage writes it performed. -/
def POST (env : PostEnv) : PostResult × List Effect :=
  if env.parseOk = false then (.error .badRequestApi, [])
  else
    match env.session with
    | none => (.error .unauthorizedChat, [])
    | some sess =>
      if env.messageCount > env.maxMessagesPerDay sess.userType then
        (.error .rateLimitChat, [])
      else
        match env.existingChat with
        | none =>
          postTail env [Effect.saveChat]
        | some chat =>
          if chat.userId ≠ sess.userId then (.error .forbiddenChat, [])
          else postTail env []

/-- The `onFinish` callback of `streamText` (source lines 190-225): if a
session user id is present, look for the trailing assistant message id
(throwing if absent) and save the assistant message; the whole body is
wrapped in try/catch whose handler only logs.  `saveOutcome` is what
`saveMessages` would do; the result is what escapes the callback. -/
def onFinish (sessionUserId : Option String) (assistantId : Option String)
    (saveOutcome : Except String Unit) : Except String Unit :=
  match sessionUserId with
  | none => .ok ()
  | some _ =>
    let body : Except String Unit :=
      match assistantId with
      | none => .error "No assistant message found!"
      | some _ => saveOutcome
    match body with
    | .ok _ => .ok ()
    | .error _ => .ok ()

/-- `createDataStream` semantics (source lines 163-242): the delivered
stream is the produced chunks followed by a terminator when the execute
callback completes, or followed by the `onError` message chunk when an
error escapes it. -/
def createDataStreamOut (chunks : List Chunk) (execOutcome : Except String Unit)
    (onErrorMsg : String) : List Chunk :=
  match execOutcome with
  | .ok _ => chunks ++ [Chunk.terminator]
  | .error _ => chunks ++ [Chunk.errorChunk onErrorMsg]

/-! ## GET /api/chat: resume a stream -/

/-- Environment of one GET (resume) request. `attach` is
`streamContext.resumableStream(id, () => emptyDataStream)`; `now` is
`resumeRequestedAt` in integer seconds. `getChatById` may fail (the
source wraps it in its own try/catch). -/
structure GetEnv where
  streamContextAvailable : Bool
  chatIdParam : Option String
  session : Option Session
  getChatById : String → Except Unit (Option Chat)
  getStreamIdsByChatId : String → List String
  attach : String → Option (List Chunk)
  getMessagesByChatId : String → List DBMessage
  now : Int

inductive GetResult where
  | error (e : ErrCode)
  | noContent
  | stream (chunks : List Chunk)
deriving DecidableEq, Repr

/-- The GET handler (source lines 290-409).  `.noContent` is the 204
response when no stream context exists; `.stream []` is the empty data
stream; the fallback's restored stream carries exactly one
`append-message` control chunk. -/
def GET (env : GetEnv) : GetResult :=
  if env.streamContextAvailable = false then .noContent
  else
    match env.chatIdParam with
    | none => .error .badRequestApi
    | some chatId =>
      match env.session with
      | none => .error .unauthorizedChat
      | some sess =>
        match env.getChatById chatId with
        | .error _ => .error .internalServerErrorApi
        | .ok none => .error .notFoundChat
        | .ok (some chat) =>
          if chat.visibility = "private" ∧ chat.userId ≠ sess.userId then
            .error .forbiddenChat
          else
            let streamIds := env.getStreamIdsByChatId chatId
            if streamIds = [] then .error .notFoundStream
            else
              match streamIds.getLast? with
              | none => .error .notFoundStream
              | some recentStreamId =>
                match env.attach recentStreamId with
                | some s => .stream s
                | none =>
                  let messages := env.getMessagesByChatId chatId
                  match messages.getLast? with
                  | none => .stream []
                  | some mostRecentMessage =>
                    if mostRecentMessage.role ≠ "assistant" then .stream []
                    else if env.now - mostRecentMessage.createdAt > 15 then .stream []
                    else .stream [Chunk.appendMessage mostRecentMessage]

/-! ## DELETE /api/chat -/

structure DeleteEnv where
  idParam : Option String
  session : Option Session
  getChatById : String → Option Chat

inductive DeleteResult where
  | error (e : ErrCode)
  | deleted (c : Chat)
deriving DecidableEq, Repr

/-- The DELETE handler (source lines 418-458). -/
def DELETE (env : DeleteEnv) : DeleteResult × List Effect :=
  match env.idParam with
  | none => (.error .badRequestApi, [])
  | some id =>
    match env.session with
    | none => (.error .unauthorizedChat, [])
    | some sess =>
      match env.getChatById id with
      | none => (.error .notFoundChat, [])
      | some chat =>
        if chat.userId ≠ sess.userId then (.error .forbiddenChat, [])
        else (.deleted chat, [Effect.deleteChat])

/-! ## PATCH /api/vote: cast a vote -/

/-- A decoded PATCH body field: `none` when the JSON field is absent. -/
abbrev BodyField := Option String

/-- JavaScript falsiness of a string-valued field, as tested by
`if (!chatId || !messageId || !type)`: absent or empty string. -/
def jsFalsy : BodyField → Bool
  | none => true
  | some s => s = ""

structure PatchEnv where
  bodyChatId : BodyField
  bodyMessageId : BodyField
  bodyType : BodyField
  session : Option Session
  getChatById : String → Option Chat

inductive PatchResult where
  | error (e : ErrCode)
  | success
deriving DecidableEq, Repr

/-- The PATCH handler of the vote route (source lines 525-579).  Note it
destructures the JSON body directly and only applies the falsiness
check; it does not run `patchRequestBodySchema`. -/
def PATCH (env : PatchEnv) : PatchResult × List Effect :=
  if jsFalsy env.bodyChatId || jsFalsy env.bodyMessageId || jsFalsy env.bodyType then
    (.error .badRequestApi, [])
  else
    match env.session with
    | none => (.error .unauthorizedVote, [])
    | some sess =>
      match env.getChatById (env.bodyChatId.getD "") with
      | none => (.error .notFoundChat, [])
      | some chat =>
        if chat.userId ≠ sess.userId then (.error .forbiddenVote, [])
        else (.success, [Effect.voteMessage (env.bodyType.getD "")])

/-- `patchRequestBodySchema` (src/unnamed/part_000): `chatId` and
`messageId` are non-empty strings and `type` is the literal `"up"` or
`"down"`. -/
def patchRequestBodySchemaAccepts (chatId messageId ty : BodyField) : Bool :=
  (match chatId with | some s => s ≠ "" | none => false) &&
  (match messageId with | some s => s ≠ "" | none => false) &&
  (match ty with | some s => s = "up" || s = "down" | none => false)

/-! ## Channel backend: replay-then-live multi-reader delivery

Modelled from the spec: the Channel Backend and the fan-out of
`resumableStream` live in the external `resumable-stream` package, whose
code is not under src/ (the route handlers only call it).  Per the spec,
the channel buffers every accepted chunk in order; a reader attaching at
any time first receives every chunk already buffered, in original order,
and then live chunks; any number of readers may attach concurrently,
each with an independent cursor. -/

/-- Channel state for one stream id: the ordered buffer of published
chunks, and each attached reader's received-so-far list (the reader's
cursor is the length of its received list). -/
structure ChanState where
  buffer : List Chunk
  readers : List (List Chunk)
deriving DecidableEq, Repr

/-- An interleaving event: the publisher appends a chunk, a new reader
attaches, or reader `r` consumes the next buffered chunk it has not yet
seen (a no-op when it has caught up with the buffer). -/
inductive ChanEvent where
  | publish (c : Chunk)
  | attach
  | read (r : Nat)
deriving DecidableEq, Repr

/-- One step of the channel model. -/
def chanStep (s : ChanState) : ChanEvent → ChanState
  | .publish c => { s with buffer := s.buffer ++ [c] }
  | .attach => { s with readers := s.readers ++ [[]] }
  | .read r =>
    match s.readers.get? r with
    | none => s
    | some recv =>
      match s.buffer.get? recv.length with
      | none => s
      | some c => { s with readers := s.readers.set r (recv ++ [c]) }

/-- Run a schedule of events from the empty channel. -/
def chanRun (events : List ChanEvent) : ChanState :=
  events.foldl chanStep ⟨[], []⟩

/-- The sequence published by a schedule, in emission order. -/
def publishedOf (events : List ChanEvent) : List Chunk :=
  events.filterMap fun e =>
    match e with
    | .publish c => some c
    | _ => none

/-! ## Concrete request environments used to instantiate the theorems -/

def sessU1 : Session := { userId := "u1", userType := "regular" }

def chatU1Private : Chat := { userId := "u1", visibility := "private" }

def chatU1Public : Chat := { userId := "u1", visibility := "public" }

def msgAssistant : DBMessage :=
  { id := "m2", chatId := "c1", role := "assistant", createdAt := 100
    parts := ["hello"] }

/-- A resume request hitting the fallback path: context available,
authenticated owner, one stream id whose channel has closed
(`attach` yields `none`), one persisted assistant message 10 seconds
before the request. -/
def getEnvFallback : GetEnv :=
  { streamContextAvailable := true
    chatIdParam := some "c1"
    session := some sessU1
    getChatById := fun _ => .ok (some chatU1Private)
    getStreamIdsByChatId := fun _ => ["s1"]
    attach := fun _ => none
    getMessagesByChatId := fun _ => [msgAssistant]
    now := 110 }

/-- A resume request on a chat with no stream id ever minted. -/
def getEnvNoStream : GetEnv :=
  { streamContextAvailable := true
    chatIdParam := some "c1"
    session := some sessU1
    getChatById := fun _ => .ok (some chatU1Private)
    getStreamIdsByChatId := fun _ => []
    attach := fun _ => none
    getMessagesByChatId := fun _ => []
    now := 110 }

/-- A resume request with the channel backend unavailable. -/
def getEnvNoBackend : GetEnv :=
  { streamContextAvailable := false
    chatIdParam := some "c1"
    session := some sessU1
    getChatById := fun _ => .ok (some chatU1Private)
    getStreamIdsByChatId := fun _ => ["s1"]
    attach := fun _ => none
    getMessagesByChatId := fun _ => []
    now := 110 }

/-- A resume request by an authenticated non-owner, on a public chat
whose channel is live. -/
def getEnvPublicOther : GetEnv :=
  { streamContextAvailable := true
    chatIdParam := some "c1"
    session := some { userId := "u2", userType := "regular" }
    getChatById := fun _ => .ok (some chatU1Public)
    getStreamIdsByChatId := fun _ => ["s1"]
    attach := fun _ => some [Chunk.textDelta "hi", Chunk.terminator]
    getMessagesByChatId := fun _ => [msgAssistant]
    now := 110 }

/-- A start-generation request with the channel backend unavailable, by
an authenticated user on a fresh chat, under the rate limit. -/
def postEnvNoBackend : PostEnv :=
  { parseOk := true
    session := some sessU1
    messageCount := 3
    maxMessagesPerDay := fun _ => 100
    existingChat := none
    producedStream := [Chunk.textDelta "Hel", Chunk.textDelta "lo", Chunk.terminator]
    streamContextAvailable := false
    resumableResult := none }

/-- A start-generation request over the daily quota. -/
def postEnvOverQuota : PostEnv :=
  { parseOk := true
    session := some sessU1
    messageCount := 101
    maxMessagesPerDay := fun _ => 100
    existingChat := some chatU1Private
    producedStream := []
    streamContextAvailable := true
    resumableResult := none }

/-- A delete request by an authenticated non-owner. -/
def deleteEnvOther : DeleteEnv :=
  { idParam := some "c1"
    session := some { userId := "u2", userType := "regular" }
    getChatById := fun _ => some chatU1Private }

/-- A vote request by an authenticated non-owner, with a well-formed body. -/
def patchEnvOther : PatchEnv :=
  { bodyChatId := some "c1"
    bodyMessageId := some "m2"
    bodyType := some "up"
    session := some { userId := "u2", userType := "regular" }
    getChatById := fun _ => some chatU1Private }

/-- A vote request by the owner whose body carries a `type` value that
is neither `"up"` nor `"down"`. -/
def patchEnvBadType : PatchEnv :=
  { bodyChatId := some "c1"
    bodyMessageId := some "m2"
    bodyType := some "sideways"
    session := some sessU1
    getChatById := fun _ => some chatU1Private }

/-- The spec's scenario schedule: one reader attaches before publish
start, a second mid-publish; the publisher emits `"Hel"`, `"lo"`, then
the terminator; both readers drain fully. -/
def chanEventsEx : List ChanEvent :=
  [ .attach, .publish (.textDelta "Hel"), .read 0,
    .publish (.textDelta "lo"), .attach, .read 0, .read 1, .read 1,
    .publish .terminator, .read 0, .read 1 ]

/-! ## Theorems -/

/-- Every reader's received list is always the prefix of the buffer of
its own length (so chunks arrive in order, none skipped, none twice). -/
theorem chanStep_preserves_take (s : ChanState) (e : ChanEvent)
    (h : ∀ recv ∈ s.readers, recv = s.buffer.take recv.length) :
    ∀ recv ∈ (chanStep s e).readers, recv = (chanStep s e).buffer.take recv.length := by
  cases e with
  | publish c =>
    intro recv hm
    simp only [chanStep] at hm ⊢
    have h1 := h recv hm
    have h2 : recv.length ≤ s.buffer.length := by
      have := congrArg List.length h1
      simp only [List.length_take] at this
      omega
    rw [List.take_append_of_le_length h2]
    exact h1
  | attach =>
    intro recv hm
    simp only [chanStep, List.mem_append, List.mem_singleton] at hm
    rcases hm with hm | hm
    · exact h recv hm
    · subst hm; simp
  | read r =>
    intro recv hm
    simp only [chanStep] at hm ⊢
    cases hg : s.readers.get? r with
    | none =>
      rw [hg] at hm
      dsimp only at hm ⊢
      exact h recv hm
    | some recv0 =>
      rw [hg] at hm
      dsimp only at hm ⊢
      cases hb : s.buffer.get? recv0.length with
      | none =>
        rw [hb] at hm
        dsimp only at hm ⊢
        exact h recv hm
      | some c =>
        rw [hb] at hm
        dsimp only at hm ⊢
        rcases List.mem_or_eq_of_mem_set hm with hmem | heq
        · exact h recv hmem
        · subst heq
          have h0 := h recv0 (List.get?_mem hg)
          have hb2 : s.buffer[recv0.length]? = some c := by
            rw [← List.get?_eq_getElem?]
            exact hb
          have hlen : (recv0 ++ [c]).length = recv0.length + 1 := by simp
          rw [hlen, List.take_succ, hb2, ← h0]
          rfl

/-- The reader invariant holds in every state reachable from a state
satisfying it. -/
theorem chanFold_preserves_take (events : List ChanEvent) (s : ChanState)
    (h : ∀ recv ∈ s.readers, recv = s.buffer.take recv.length) :
    ∀ recv ∈ (events.foldl chanStep s).readers,
      recv = (events.foldl chanStep s).buffer.take recv.length := by
  induction events generalizing s with
  | nil => simpa using h
  | cons e es ih =>
    simp only [List.foldl_cons]
    exact ih _ (chanStep_preserves_take s e h)

/-- A step appends to the buffer exactly what it publishes. -/
theorem chanStep_buffer (s : ChanState) (e : ChanEvent) :
    (chanStep s e).buffer = s.buffer ++ publishedOf [e] := by
  cases e with
  | publish c => simp [chanStep, publishedOf]
  | attach => simp [chanStep, publishedOf]
  | read r =>
    simp only [chanStep, publishedOf, List.filterMap_cons, List.filterMap_nil,
      List.append_nil]
    cases hg : s.readers.get? r with
    | none => rfl
    | some recv0 =>
      dsimp only
      cases hb : s.buffer.get? recv0.length with
      | none => rfl
      | some c => rfl

/-- Running a schedule appends exactly the published sequence to the
buffer, in emission order. -/
theorem chanFold_buffer (events : List ChanEvent) (s : ChanState) :
    (events.foldl chanStep s).buffer = s.buffer ++ publishedOf events := by
  induction events generalizing s with
  | nil => simp [publishedOf]
  | cons e es ih =>
    simp only [List.foldl_cons]
    rw [ih, chanStep_buffer]
    cases e <;> simp [publishedOf]

/-- Claim C2: for every published chunk sequence and every reader,
regardless of attach time, the received sequence is an in-order,
duplicate-free, gap-free prefix copy of the published sequence, and a
reader that has consumed as many chunks as were published holds exactly
the published sequence; this holds for each reader independently under
any interleaving (so concurrent attaches each receive the full
sequence). -/
theorem channel_reader_receives_published_sequence (events : List ChanEvent)
    (recv : List Chunk) (h : recv ∈ (chanRun events).readers) :
    recv = (publishedOf events).take recv.length ∧
    (recv.length = (publishedOf events).length → recv = publishedOf events) := by
  have hb : (chanRun events).buffer = publishedOf events := by
    have hfold := chanFold_buffer events ⟨[], []⟩
    simpa [chanRun] using hfold
  have hp := chanFold_preserves_take events ⟨[], []⟩ (by simp) recv (by simpa [chanRun] using h)
  rw [show (List.foldl chanStep ⟨[], []⟩ events) = chanRun events from rfl, hb] at hp
  refine ⟨hp, fun hlen => ?_⟩
  rw [hp, hlen, List.take_length]

/-- Witness for C2: in the spec's scenario schedule (`"Hel"`, `"lo"`,
terminator; one reader attached before publish start and one
mid-publish), a fully drained reader holds exactly the published
sequence. -/
theorem channel_reader_witness :
    [Chunk.textDelta "Hel", Chunk.textDelta "lo", Chunk.terminator]
        ∈ (chanRun chanEventsEx).readers ∧
    [Chunk.textDelta "Hel", Chunk.textDelta "lo", Chunk.terminator]
        = publishedOf chanEventsEx :=
  ⟨by decide,
   (channel_reader_receives_published_sequence chanEventsEx _ (by decide)).2 (by decide)⟩

/-- Claim C1: on a resume request whose attach on the latest stream id
returns `none`, the handler replies with the empty terminated stream
when there is no persisted message, or the most recent message is not
an assistant message, or it was created more than 15 seconds before the
request; otherwise it replies with a stream holding exactly one control
chunk carrying the most recent message. -/
theorem get_fallback_replays_recent_assistant_message (env : GetEnv)
    (chatId : String) (sess : Session) (chat : Chat)
    (hctx : env.streamContextAvailable = true)
    (hparam : env.chatIdParam = some chatId)
    (hsess : env.session = some sess)
    (hchat : env.getChatById chatId = .ok (some chat))
    (hvis : ¬(chat.visibility = "private" ∧ chat.userId ≠ sess.userId))
    (hids : env.getStreamIdsByChatId chatId ≠ [])
    (hattach : ∀ sid, (env.getStreamIdsByChatId chatId).getLast? = some sid →
      env.attach sid = none) :
    ((env.getMessagesByChatId chatId).getLast? = none → GET env = .stream []) ∧
    (∀ m, (env.getMessagesByChatId chatId).getLast? = some m →
      (m.role ≠ "assistant" ∨ env.now - m.createdAt > 15) → GET env = .stream []) ∧
    (∀ m, (env.getMessagesByChatId chatId).getLast? = some m →
      m.role = "assistant" → env.now - m.createdAt ≤ 15 →
      GET env = .stream [Chunk.appendMessage m]) := by
  obtain ⟨sid, hsid⟩ : ∃ sid, (env.getStreamIdsByChatId chatId).getLast? = some sid :=
    Option.isSome_iff_exists.mp (List.getLast?_isSome.mpr hids)
  have hred : GET env =
      (match (env.getMessagesByChatId chatId).getLast? with
        | none => GetResult.stream []
        | some m =>
          if m.role ≠ "assistant" then GetResult.stream []
          else if env.now - m.createdAt > 15 then GetResult.stream []
          else GetResult.stream [Chunk.appendMessage m]) := by
    simp [GET, hctx, hparam, hsess, hchat, hsid, hattach sid hsid, hvis, hids]
  refine ⟨?_, ?_, ?_⟩
  · intro hnone
    rw [hred, hnone]
  · intro m hm hbad
    rw [hred, hm]
    rcases hbad with hrole | hstale
    · simp [hrole]
    · by_cases hrole : m.role = "assistant" <;> simp [hrole, hstale]
  · intro m hm hrole hfresh
    rw [hred, hm]
    simp [hrole, not_lt.mpr hfresh]

/-- Witness for C1: in `getEnvFallback` (channel closed, assistant
message 10 seconds old) the resume replies with exactly the one control
chunk carrying that message. -/
theorem get_fallback_witness :
    GET getEnvFallback = .stream [Chunk.appendMessage msgAssistant] :=
  (get_fallback_replays_recent_assistant_message getEnvFallback "c1" sessU1 chatU1Private
      rfl rfl rfl rfl (by decide) (by decide) (fun _ _ => rfl)).2.2
    msgAssistant rfl rfl (by decide)

/-- Claim C3: when the channel backend is unavailable, start-generation
returns the raw producer stream unchanged and every resume request
replies with the unavailable (204) signal instead of attaching. -/
theorem backend_unavailable_degrades_to_passthrough (penv : PostEnv) (genv : GetEnv)
    (sess : Session)
    (hpctx : penv.streamContextAvailable = false)
    (hparse : penv.parseOk = true)
    (hsess : penv.session = some sess)
    (hrate : ¬ penv.messageCount > penv.maxMessagesPerDay sess.userType)
    (hown : ∀ chat, penv.existingChat = some chat → chat.userId = sess.userId)
    (hgctx : genv.streamContextAvailable = false) :
    (POST penv).1 = .response penv.producedStream ∧ GET genv = .noContent := by
  constructor
  · cases hchat : penv.existingChat with
    | none => simp [POST, postTail, hparse, hsess, hrate, hchat, hpctx]
    | some chat =>
      have hc := hown chat hchat
      simp [POST, postTail, hparse, hsess, hrate, hchat, hc, hpctx]
  · simp [GET, hgctx]

/-- Witness for C3: with the backend disabled, the POST response is the
producer stream itself and the resume is a 204. -/
theorem backend_unavailable_witness :
    (POST postEnvNoBackend).1 = .response postEnvNoBackend.producedStream ∧
    GET getEnvNoBackend = .noContent :=
  backend_unavailable_degrades_to_passthrough postEnvNoBackend getEnvNoBackend sessU1
    rfl rfl rfl (by decide) (fun _ h => nomatch h) rfl

/-- Claim C4: a resume request on an existing, accessible conversation
with no stream id ever minted replies `not_found:stream`. -/
theorem get_no_stream_id_not_found (env : GetEnv)
    (chatId : String) (sess : Session) (chat : Chat)
    (hctx : env.streamContextAvailable = true)
    (hparam : env.chatIdParam = some chatId)
    (hsess : env.session = some sess)
    (hchat : env.getChatById chatId = .ok (some chat))
    (hvis : ¬(chat.visibility = "private" ∧ chat.userId ≠ sess.userId))
    (hids : env.getStreamIdsByChatId chatId = []) :
    GET env = .error .notFoundStream := by
  simp [GET, hctx, hparam, hsess, hchat, hvis, hids]

/-- Witness for C4. -/
theorem get_no_stream_id_witness : GET getEnvNoStream = .error .notFoundStream :=
  get_no_stream_id_not_found getEnvNoStream "c1" sessU1 chatU1Private
    rfl rfl rfl rfl (by decide) rfl

/-- Claim C10: an authenticated requester who is not the owner is
rejected with `forbidden:chat` exactly when the conversation is
private; on a public conversation the resume proceeds (never
`forbidden:chat`). -/
theorem get_visibility_gate (env : GetEnv)
    (chatId : String) (sess : Session) (chat : Chat)
    (hctx : env.streamContextAvailable = true)
    (hparam : env.chatIdParam = some chatId)
    (hsess : env.session = some sess)
    (hchat : env.getChatById chatId = .ok (some chat))
    (hown : chat.userId ≠ sess.userId) :
    (chat.visibility = "private" → GET env = .error .forbiddenChat) ∧
    (chat.visibility = "public" → GET env ≠ .error .forbiddenChat) := by
  constructor
  · intro hvis
    simp [GET, hctx, hparam, hsess, hchat, hvis, hown]
  · intro hvis hcontra
    have hne : ¬(chat.visibility = "private" ∧ chat.userId ≠ sess.userId) := by
      rw [hvis]; simp
    by_cases hids : env.getStreamIdsByChatId chatId = []
    · simp [GET, hctx, hparam, hsess, hchat, hne, hids] at hcontra
    · obtain ⟨sid, hsid⟩ : ∃ sid, (env.getStreamIdsByChatId chatId).getLast? = some sid :=
        Option.isSome_iff_exists.mp (List.getLast?_isSome.mpr hids)
      cases hat : env.attach sid with
      | some s =>
        simp [GET, hctx, hparam, hsess, hchat, hne, hids, hsid, hat] at hcontra
      | none =>
        cases hm : (env.getMessagesByChatId chatId).getLast? with
        | none =>
          simp [GET, hctx, hparam, hsess, hchat, hne, hids, hsid, hat, hm] at hcontra
        | some m =>
          by_cases hrole : m.role = "assistant"
          · by_cases hstale : env.now - m.createdAt > 15
            · simp [GET, hctx, hparam, hsess, hchat, hne, hids, hsid, hat, hm,
                hrole, hstale] at hcontra
            · simp [GET, hctx, hparam, hsess, hchat, hne, hids, hsid, hat, hm,
                hrole, hstale] at hcontra
          · simp [GET, hctx, hparam, hsess, hchat, hne, hids, hsid, hat, hm,
              hrole] at hcontra

/-- Witness for C10: a non-owner resuming a public conversation is not
rejected. -/
theorem get_visibility_gate_witness :
    GET getEnvPublicOther ≠ .error .forbiddenChat :=
  (get_visibility_gate getEnvPublicOther "c1"
      { userId := "u2", userType := "regular" } chatU1Public
      rfl rfl rfl rfl (by decide)).2 rfl

/-- Counterexample to claim C5: starting from the fresh global (`none`),
a run of two `getStreamContext` calls in which construction throws both
times attempts construction at BOTH calls — the second call retries
after the first call's recorded failure, so failure is not memoized. -/
theorem getStreamContext_retries_after_failure_cex :
    getStreamContextAttempts none [none, none] = [true, true] ∧
    retriesAfterFailure none false [none, none] = true := by
  decide

/-- Claim C5 as amended: the handle is lazily initialised; the first
access attempts construction; a recorded success is permanent (no
later access attempts construction again and each returns the same
handle); but a construction failure leaves the global unset, so the
very next access attempts construction again. -/
theorem getStreamContext_lazy_init_lifecycle (c : ResumableStreamContext)
    (o : Option ResumableStreamContext) (os : List (Option ResumableStreamContext)) :
    getStreamContextCall none o = (o, o, true) ∧
    getStreamContextCall (some c) o = (some c, some c, false) ∧
    getStreamContextAttempts (some c) os = List.replicate os.length false := by
  refine ⟨rfl, rfl, ?_⟩
  induction os with
  | nil => rfl
  | cons o2 os2 ih =>
    simp only [getStreamContextAttempts, getStreamContextCall, List.length_cons,
      List.replicate]
    exact congrArg (false :: ·) ih

/-- Claim C6: when persistence of the finished assistant message fails,
the `onFinish` callback swallows the error (nothing escapes) and the
delivered data stream is still the produced chunks followed by the
terminator, not an error chunk. -/
theorem persistence_failure_swallowed_stream_terminates
    (uid : String) (assistantId : Option String) (e : String) (chunks : List Chunk)
    (saveOutcome : Except String Unit)
    (hfail : saveOutcome = .error e) :
    onFinish (some uid) assistantId saveOutcome = .ok () ∧
    createDataStreamOut chunks (onFinish (some uid) assistantId saveOutcome)
      "Oops, an error occurred during streaming!" = chunks ++ [Chunk.terminator] := by
  subst hfail
  cases assistantId <;> simp [onFinish, createDataStreamOut]

/-- Witness for C6: a concrete failed save is swallowed and the stream
still ends with the terminator. -/
theorem persistence_failure_witness :
    onFinish (some "u1") (some "m9") (Except.error "db down") = .ok () ∧
    createDataStreamOut [Chunk.textDelta "Hel"]
        (onFinish (some "u1") (some "m9") (Except.error "db down"))
        "Oops, an error occurred during streaming!"
      = [Chunk.textDelta "Hel"] ++ [Chunk.terminator] :=
  persistence_failure_swallowed_stream_terminates "u1" (some "m9") "db down"
    [Chunk.textDelta "Hel"] _ rfl

/-- Claim C7: a start-generation request over the daily quota is
rejected with `rate_limit:chat` with an empty write trace — the check
runs before any chat creation or message write. -/
theorem rate_limit_precedes_writes (env : PostEnv) (sess : Session)
    (hparse : env.parseOk = true)
    (hsess : env.session = some sess)
    (hover : env.messageCount > env.maxMessagesPerDay sess.userType) :
    POST env = (.error .rateLimitChat, []) := by
  simp [POST, hparse, hsess, hover]

/-- Witness for C7. -/
theorem rate_limit_witness : POST postEnvOverQuota = (.error .rateLimitChat, []) :=
  rate_limit_precedes_writes postEnvOverQuota sessU1 rfl rfl (by decide)

/-- Claim C8: an authenticated non-owner's delete is rejected with
`forbidden:chat` and an authenticated non-owner's vote with
`forbidden:vote`, each with an empty write trace — `deleteChatById`
resp. `voteMessage` is never invoked. -/
theorem non_owner_forbidden_no_writes (denv : DeleteEnv) (penv : PatchEnv)
    (id : String) (dsess psess : Session) (dchat pchat : Chat)
    (hid : denv.idParam = some id)
    (hdsess : denv.session = some dsess)
    (hdchat : denv.getChatById id = some dchat)
    (hdown : dchat.userId ≠ dsess.userId)
    (hbody : (jsFalsy penv.bodyChatId || jsFalsy penv.bodyMessageId
      || jsFalsy penv.bodyType) = false)
    (hpsess : penv.session = some psess)
    (hpchat : penv.getChatById (penv.bodyChatId.getD "") = some pchat)
    (hpown : pchat.userId ≠ psess.userId) :
    DELETE denv = (.error .forbiddenChat, []) ∧
    PATCH penv = (.error .forbiddenVote, []) := by
  constructor
  · simp [DELETE, hid, hdsess, hdchat, hdown]
  · simp [PATCH, hbody, hpsess, hpchat, hpown]

/-- Witness for C8. -/
theorem non_owner_forbidden_witness :
    DELETE deleteEnvOther = (.error .forbiddenChat, []) ∧
    PATCH patchEnvOther = (.error .forbiddenVote, []) :=
  non_owner_forbidden_no_writes deleteEnvOther patchEnvOther "c1"
    { userId := "u2", userType := "regular" } { userId := "u2", userType := "regular" }
    chatU1Private chatU1Private rfl rfl rfl (by decide) rfl rfl rfl (by decide)

/-- Claim C9 fails on the code: the PATCH handler never runs
`patchRequestBodySchema`; a body whose `type` is the non-empty string
`"sideways"` (neither `"up"` nor `"down"`, rejected by the repository's
own schema) passes the falsiness check, and the handler invokes
`voteMessage` with it and reports success instead of `bad_request`. -/
theorem patch_accepts_invalid_type_value :
    PATCH patchEnvBadType = (.success, [Effect.voteMessage "sideways"]) ∧
    patchRequestBodySchemaAccepts (some "c1") (some "m2") (some "sideways") = false := by
  exact ⟨rfl, rfl⟩

end ChatBot
